import Mathlib

/-!
Shallow embedding of the minipro repository (a GATT-over-BLE client with a
joystick input poller and a fixed-rate control loop) and proofs about its
claimed properties.

Source files embedded:
- `src/bluetooth/le_client.cpp` : LEClient (GATT operation facade)
- `src/util/joystick.cpp`       : Joystick (input poller)
- `test/minipro/t_minipro.cpp`  : the control-loop application

Conventions of the embedding:
- C++ integers become `Nat`/`Int`; the signed 16-bit joystick values and the
  control-loop arithmetic stay well inside machine range, so no wraparound
  modelling is needed.
- `std::promise<int>` completion slots become `Option Int` (`none` =
  unfulfilled, `some v` = fulfilled with `v`).
- `printf`/`std::cout` reporting becomes explicit message values, so that
  theorems can talk about which diagnostic path a run takes.
- Callback-driven asynchronous completions are embedded by passing the
  completion's arguments (success flag, error code, payload) as explicit
  parameters to the function that would block on them.
-/

namespace Minipro

/-! ## LEClient (src/bluetooth/le_client.cpp) -/

namespace LEClient

/-- Client state relevant to the reliable-write session protocol:
`reliable_session_id_` from `le_client.hpp`/`le_client.cpp` (0 = no open
session). -/
structure ClientState where
  reliable_session_id : Nat
  deriving DecidableEq, Repr

/-- `LEClient::write_long_cb` (le_client.cpp:314-325). The `std::promise<int>`
slot passed as `user_data` is modelled as the returned `Option Int`:
`some v` means the handler called `promise->set_value(v)`, `none` means it
returned without fulfilling the slot. On success it fulfills with 0; on a
reliable-write verification error (`success == false && reliable_error`) it
only prints "Reliable write not verified" and does not fulfill the slot;
otherwise it fulfills with the ATT error code. -/
def write_long_cb (success reliable_error : Bool) (att_ecode : Nat) : Option Int :=
  if success then
    some 0
  else if reliable_error then
    none
  else
    some (att_ecode : Int)

/-- `LEClient::write_prepare` (le_client.cpp:344-361). `id` is the caller's
session id, `collabResult` the session id returned by
`bt_gatt_client_prepare_write`. The returned `Bool` records whether the
collaborator (`bt_gatt_client_prepare_write`) was invoked. If `id` differs
from the stored `reliable_session_id_`, the function prints a mismatch
diagnostic and returns at once: state unchanged, collaborator not contacted.
Otherwise the stored session id is replaced by the collaborator's result. -/
def write_prepare (s : ClientState) (id : Nat) (collabResult : Nat) :
    ClientState × Bool :=
  if s.reliable_session_id ≠ id then
    (s, false)
  else
    ({ s with reliable_session_id := collabResult }, true)

/-- `LEClient::write_execute` (le_client.cpp:370-389). `execute` is the
`commit` flag; `dispatchOk` models the boolean result of
`bt_gatt_client_write_execute`; `rc` models the completion status retrieved
from the promise by `future.get()` (0 = success). The returned message list
records the diagnostics printed on the way. Both the commit branch and the
cancel branch end with `reliable_session_id_ = 0`. -/
def write_execute (s : ClientState) (session_id : Nat) (execute : Bool)
    (dispatchOk : Bool) (rc : Nat) : ClientState × List String :=
  if execute then
    ({ s with reliable_session_id := 0 },
      (if dispatchOk then [] else ["Failed to proceed write execute"]) ++
      (if rc ≠ 0 then ["Write failed"] else []))
  else
    -- `bt_gatt_client_cancel(gatt_, session_id)` has no client-visible effect
    -- beyond the collaborator call.
    ({ s with reliable_session_id := 0 }, [])

/-- Diagnostics a read operation can print. `read_value` and
`read_long_value` return `void` in the C++ source: all outcomes are reported
through these printed messages, never through a return value. -/
inductive ReadMsg where
  /-- "Failed to initiate read value" / "Failed to initiate read long value":
  the dispatch to the collaborator itself failed. -/
  | dispatchFailed : ReadMsg
  /-- "Read request failed: ... (0x..)": the completion carried a protocol
  error code. -/
  | requestFailed (att_ecode : Nat) : ReadMsg
  /-- "Read value (n bytes): ...": the completion carried the read payload
  (covers both the 0-byte and the n-byte print of `read_cb`). -/
  | value (bytes : List Nat) : ReadMsg
  deriving DecidableEq, Repr

/-- `LEClient::read_cb` (le_client.cpp:276-296): prints the error code on
failure, the payload bytes on success. -/
def read_cb (success : Bool) (att_ecode : Nat) (value : List Nat) : ReadMsg :=
  if success then ReadMsg.value value else ReadMsg.requestFailed att_ecode

/-- Observable outcome of one read operation: what (if anything) is returned
to the caller, and what is printed. -/
structure ReadOutcome where
  /-- The value returned to the caller. The C++ `read_value` and
  `read_long_value` have return type `void`, so this is `none` on every
  path: neither the bytes nor an error code reach the caller as a value. -/
  returned : Option (List Nat ⊕ Nat)
  printed : List ReadMsg
  deriving DecidableEq, Repr

/-- `LEClient::read_value` (le_client.cpp:298-304). `dispatchOk` models the
boolean result of `bt_gatt_client_read_value`; when dispatch succeeds, the
completion (`success`, `att_ecode`, `value`) is delivered to `read_cb` on the
event thread. The C++ function returns `void`: `returned` is `none`. -/
def read_value (dispatchOk : Bool) (success : Bool) (att_ecode : Nat)
    (value : List Nat) : ReadOutcome :=
  { returned := none,
    printed :=
      if dispatchOk then [read_cb success att_ecode value]
      else [ReadMsg.dispatchFailed] }

/-- `LEClient::read_long_value` (le_client.cpp:306-312): same shape as
`read_value`, with an extra offset argument passed through to the
collaborator. -/
def read_long_value (dispatchOk : Bool) (offset : Nat) (success : Bool)
    (att_ecode : Nat) (value : List Nat) : ReadOutcome :=
  { returned := none,
    printed :=
      if dispatchOk then [read_cb success att_ecode value]
      else [ReadMsg.dispatchFailed] }

end LEClient

/-! ## Joystick (src/util/joystick.cpp) -/

/-- One logical (x, y) axis slot of `axis_map_` (`AxisState` in the source). -/
structure AxisPair where
  x : Int
  y : Int
  deriving DecidableEq, Repr

/-- Callbacks (`std::function<void(bool)>`) are modelled opaquely by tokens;
only presence (`some`) versus `nullptr` (`none`) and identity matter to the
claims. -/
abbrev Callback : Type := Nat

/-- Poller state after `Joystick::Joystick` ran: the axis/button counts
queried from the device at open time, the `axis_map_` backing array (modelled
as a total map from raw index to slot, since the header's static array bound
is not part of the embedded sources), and the `button_map_` callback table
(modelled as a list whose length is exactly the initialized range
`0 .. num_buttons-1`). -/
structure Joystick where
  num_axes : Nat
  num_buttons : Nat
  axis_map : Nat → AxisPair
  button_map : List (Option Callback)

/-- `Joystick::Joystick` (joystick.cpp:33-63), after the device reported
`num_axes` and `num_buttons`: entries `0 .. num_axes-1` of `axis_map_` are
zeroed (indices beyond keep whatever the backing storage held), and entries
`0 .. num_buttons-1` of `button_map_` are set to `nullptr`. -/
def joystickInit (backing : Nat → AxisPair) (num_axes num_buttons : Nat) :
    Joystick :=
  { num_axes := num_axes
    num_buttons := num_buttons
    axis_map := fun i => if i < num_axes then ⟨0, 0⟩ else backing i
    button_map := List.replicate num_buttons none }

/-- Exception message of `Joystick::get_axis_state` (joystick.cpp:81). -/
def axisRangeErrorMsg : String :=
  "Joystick: get_axis_state: axis value out of range"

/-- Exception message of `Joystick::set_button_callback` (joystick.cpp:91). -/
def buttonRangeErrorMsg : String :=
  "Joystick: set_button_callback: button value out of range"

/-- `Joystick::get_axis_state` (joystick.cpp:77-85): throws out-of-range when
`axis >= num_axes_`, otherwise returns a snapshot copy of the slot. -/
def get_axis_state (j : Joystick) (axis : Nat) : Except String AxisPair :=
  if axis ≥ j.num_axes then
    Except.error axisRangeErrorMsg
  else
    Except.ok (j.axis_map axis)

/-- `Joystick::set_button_callback` (joystick.cpp:87-95): throws out-of-range
when `button >= num_buttons_` (no entry modified: the error result carries no
new state), otherwise stores the callback in the table. -/
def set_button_callback (j : Joystick) (button : Nat) (cb : Callback) :
    Except String Joystick :=
  if button ≥ j.num_buttons then
    Except.error buttonRangeErrorMsg
  else
    Except.ok { j with button_map := j.button_map.set button (some cb) }

/-- The `JS_EVENT_AXIS` switch of `Joystick::input_thread_func`
(joystick.cpp:113-151): routes a raw axis `number`'s signed `value` into
`axis_map_`. Raw 0,1 write slot 0's x,y; raw 2 writes slot 2's x; raw 3,4
write slot 1's x,y; raw 5 writes slot 2's y; raw 6,7 write slot 3's x,y; any
other raw number falls through the switch and changes nothing. -/
def axisWrite (m : Nat → AxisPair) (number : Nat) (value : Int) :
    Nat → AxisPair :=
  match number with
  | 0 => fun k => if k = 0 then { m 0 with x := value } else m k
  | 1 => fun k => if k = 0 then { m 0 with y := value } else m k
  | 2 => fun k => if k = 2 then { m 2 with x := value } else m k
  | 3 => fun k => if k = 1 then { m 1 with x := value } else m k
  | 4 => fun k => if k = 1 then { m 1 with y := value } else m k
  | 5 => fun k => if k = 2 then { m 2 with y := value } else m k
  | 6 => fun k => if k = 3 then { m 3 with x := value } else m k
  | 7 => fun k => if k = 3 then { m 3 with y := value } else m k
  | _ => m

/-- One `JS_EVENT_AXIS` event processed by the poller loop, at the level of
the whole poller state. -/
def processAxisEvent (j : Joystick) (number : Nat) (value : Int) : Joystick :=
  { j with axis_map := axisWrite j.axis_map number value }

/-- The `JS_EVENT_BUTTON` arm of `Joystick::input_thread_func`
(joystick.cpp:106-111): `button_map_[event.number]` is read with the raw
event number, with no comparison against `num_buttons_`. In this total
embedding the unchecked array read becomes `List.get?`: the outer `none`
is the out-of-initialized-range branch (which the C++ reaches as an
out-of-bounds array access), `some none` is a `nullptr` entry (callback not
invoked), `some (some cb)` is the callback that gets invoked. -/
def processButtonEvent (j : Joystick) (number : Nat) :
    Option (Option Callback) :=
  j.button_map.get? number

/-! ## Control loop (test/minipro/t_minipro.cpp) -/

namespace TMinipro

/-- `sign` (t_minipro.cpp:36): `a > 0 ? 1 : -1`. Note `sign 0 = -1`. -/
def sign (a : Int) : Int := if a > 0 then 1 else -1

/-- `zero_threshold_x` (t_minipro.cpp:70), applied to the throttle axis. -/
def zero_threshold_x : Int := 8000

/-- `zero_threshold_y` (t_minipro.cpp:71), applied to the steering axis. -/
def zero_threshold_y : Int := 8000

/-- The deadzone transform the loop body applies to each axis
(t_minipro.cpp:72-85), abstracted over the threshold `T` (the source
instantiates it twice with `T = 8000`): values with `|v| < T` become 0,
otherwise `(|v| - T) * sign v`. -/
def deadzone (T v : Int) : Int :=
  if |v| < T then 0 else (|v| - T) * sign v

/-- One iteration of the `while (!should_exit)` body (t_minipro.cpp:61-93),
from the axis-0 snapshot to the `(throttle, steering)` pair passed to
`minipro.drive`. Axis values are negated so forward/right are positive, the
deadzone is applied per axis, and the steering result is divided by 10
(`steering /= 10.0` on an integer variable: double division truncated back
toward zero, which `Int.tdiv` reproduces). -/
def driveCommand (a : AxisPair) : Int × Int :=
  let throttle0 : Int := -a.y
  let steering0 : Int := -a.x
  let throttle : Int :=
    if |throttle0| < zero_threshold_x then 0
    else (|throttle0| - zero_threshold_x) * sign throttle0
  let steering : Int :=
    if |steering0| < zero_threshold_y then 0
    else ((|steering0| - zero_threshold_y) * sign steering0).tdiv 10
  (throttle, steering)

/-- The control loop of `main` (t_minipro.cpp:61-96) as a trace of drive
commands. The interrupt handler (t_minipro.cpp:31-34) sets `should_exit`,
which the loop consumes at the top of the next iteration; this is embedded
by the list of axis-0 snapshots read before shutdown is observed. Each
iteration emits one `driveCommand`; once the flag is seen the loop exits and
`minipro.drive(0, 0)` runs exactly once before the connection teardown. -/
def control_loop : List AxisPair → List (Int × Int)
  | [] => [(0, 0)]
  | a :: rest => driveCommand a :: control_loop rest

end TMinipro

/-! ## Theorems -/

/-- C1: in `write_long_cb`, the pending operation's completion slot is
fulfilled if and only if the completion carries final success (fulfilled
with 0) or a concrete protocol error code (fulfilled with that code); the
reliable-error branch (`success = false`, `reliable_error = true`) never
fulfills it. -/
theorem C1_write_long_cb_fulfillment :
    ∀ (success reliable_error : Bool) (att_ecode : Nat) (v : Int),
      (LEClient.write_long_cb success reliable_error att_ecode = some v ↔
        (success = true ∧ v = 0) ∨
        (success = false ∧ reliable_error = false ∧ v = (att_ecode : Int))) ∧
      LEClient.write_long_cb false true att_ecode = none := by
  intro s r e v
  refine ⟨?_, rfl⟩
  cases s <;> cases r <;> simp [LEClient.write_long_cb] <;> exact comm

/-- C2: `write_prepare` called with a session id different from the stored
open session id (0 when none is open) fails locally: it returns without
contacting the collaborator (`false` in the second component) and leaves the
stored session id — the whole client state — unchanged. -/
theorem C2_write_prepare_mismatch_fails_locally
    (s : LEClient.ClientState) (id collabResult : Nat)
    (h : id ≠ s.reliable_session_id) :
    LEClient.write_prepare s id collabResult = (s, false) := by
  simp [LEClient.write_prepare, Ne.symm h]

/-- Witness for C2 at a concrete state: open session id 5, caller passes 3. -/
theorem C2_write_prepare_mismatch_witness :
    LEClient.write_prepare ⟨5⟩ 3 7 = (⟨5⟩, false) :=
  C2_write_prepare_mismatch_fails_locally ⟨5⟩ 3 7 (by decide)

/-- C3: after any call to `write_execute` — commit or cancel, dispatch
succeeded or not, completion successful or carrying an error — the stored
open session id is 0. -/
theorem C3_write_execute_clears_session :
    ∀ (s : LEClient.ClientState) (session_id : Nat) (execute dispatchOk : Bool)
      (rc : Nat),
      ((LEClient.write_execute s session_id execute dispatchOk rc).1).reliable_session_id
        = 0 := by
  intro s sid ex d rc
  cases ex <;> simp [LEClient.write_execute]

/-- C8 counterexample: on a read whose dispatch succeeds and whose completion
succeeds with bytes `[1, 2]`, `read_value` returns nothing to the caller
(its C++ return type is `void`): the read bytes are not returned, refuting
the claim as stated at this concrete input. -/
theorem C8_read_value_returns_nothing :
    (LEClient.read_value true true 0 [1, 2]).returned ≠
      some (Sum.inl [1, 2]) ∧
    (LEClient.read_value true true 0 [1, 2]).returned = none := by
  exact ⟨by decide, rfl⟩

/-- The control-loop `sign` function has absolute value 1 everywhere. -/
theorem abs_sign_eq_one (v : Int) : |TMinipro.sign v| = 1 := by
  unfold TMinipro.sign
  by_cases h : v > 0 <;> simp [h]

/-- Above the threshold, the magnitude of the deadzone output is `|v| - T`. -/
theorem abs_deadzone_of_le (T v : Int) (h : T ≤ |v|) :
    |TMinipro.deadzone T v| = |v| - T := by
  unfold TMinipro.deadzone
  rw [if_neg (not_lt.2 h), abs_mul, abs_sign_eq_one, mul_one,
    abs_of_nonneg (by omega : (0 : Int) ≤ |v| - T)]

/-- C4: for every integer `v` and positive threshold `T`, the deadzone
transform yields 0 when `|v| < T` and `sign v * (|v| - T)` when `|v| ≥ T`;
it is 0 exactly at the boundary `|v| = T`, and its magnitude is monotone in
`|v|` above the threshold. -/
theorem C4_deadzone (T : Int) (hT : 0 < T) :
    (∀ v : Int, |v| < T → TMinipro.deadzone T v = 0) ∧
    (∀ v : Int, T ≤ |v| →
      TMinipro.deadzone T v = TMinipro.sign v * (|v| - T)) ∧
    (∀ v : Int, |v| = T → TMinipro.deadzone T v = 0) ∧
    (∀ v w : Int, T ≤ |v| → |v| ≤ |w| →
      |TMinipro.deadzone T v| ≤ |TMinipro.deadzone T w|) := by
  refine ⟨?_, ?_, ?_, ?_⟩
  · intro v h
    simp [TMinipro.deadzone, h]
  · intro v h
    unfold TMinipro.deadzone
    rw [if_neg (not_lt.2 h), mul_comm]
  · intro v h
    unfold TMinipro.deadzone
    rw [if_neg (not_lt.2 h.ge), h, sub_self, zero_mul]
  · intro v w hv hw
    rw [abs_deadzone_of_le T v hv, abs_deadzone_of_le T w (le_trans hv hw)]
    omega

/-- Witness for C4 with the source's threshold 8000 and the end-to-end
scenario's values. -/
theorem C4_deadzone_witness :
    TMinipro.deadzone 8000 500 = 0 ∧
    TMinipro.deadzone 8000 (-20000) =
      TMinipro.sign (-20000) * (|(-20000 : Int)| - 8000) ∧
    TMinipro.deadzone 8000 (-8000) = 0 ∧
    |TMinipro.deadzone 8000 9000| ≤ |TMinipro.deadzone 8000 (-20000)| := by
  have h := C4_deadzone 8000 (by decide)
  exact ⟨h.1 500 (by decide), h.2.1 (-20000) (by decide),
    h.2.2.1 (-8000) (by decide), h.2.2.2 9000 (-20000) (by decide) (by decide)⟩

/-- C5: the axis-event switch routes raw axis number 0/1 to slot 0's x/y,
2 to slot 2's x, 3/4 to slot 1's x/y, 5 to slot 2's y, 6/7 to slot 3's x/y,
leaves every slot unchanged for any other raw number, and in every case
leaves all slots other than the addressed one unchanged (including the
untouched coordinate of the addressed slot). -/
theorem C5_axis_routing (m : Nat → AxisPair) (v : Int) :
    ((axisWrite m 0 v) 0 = ⟨v, (m 0).y⟩ ∧
      ∀ s, s ≠ 0 → axisWrite m 0 v s = m s) ∧
    ((axisWrite m 1 v) 0 = ⟨(m 0).x, v⟩ ∧
      ∀ s, s ≠ 0 → axisWrite m 1 v s = m s) ∧
    ((axisWrite m 2 v) 2 = ⟨v, (m 2).y⟩ ∧
      ∀ s, s ≠ 2 → axisWrite m 2 v s = m s) ∧
    ((axisWrite m 3 v) 1 = ⟨v, (m 1).y⟩ ∧
      ∀ s, s ≠ 1 → axisWrite m 3 v s = m s) ∧
    ((axisWrite m 4 v) 1 = ⟨(m 1).x, v⟩ ∧
      ∀ s, s ≠ 1 → axisWrite m 4 v s = m s) ∧
    ((axisWrite m 5 v) 2 = ⟨(m 2).x, v⟩ ∧
      ∀ s, s ≠ 2 → axisWrite m 5 v s = m s) ∧
    ((axisWrite m 6 v) 3 = ⟨v, (m 3).y⟩ ∧
      ∀ s, s ≠ 3 → axisWrite m 6 v s = m s) ∧
    ((axisWrite m 7 v) 3 = ⟨(m 3).x, v⟩ ∧
      ∀ s, s ≠ 3 → axisWrite m 7 v s = m s) ∧
    (∀ n, 7 < n → ∀ s, axisWrite m n v s = m s) := by
  refine ⟨⟨rfl, ?_⟩, ⟨rfl, ?_⟩, ⟨rfl, ?_⟩, ⟨rfl, ?_⟩, ⟨rfl, ?_⟩, ⟨rfl, ?_⟩,
    ⟨rfl, ?_⟩, ⟨rfl, ?_⟩, ?_⟩
  case refine_9 =>
    intro n hn s
    obtain ⟨k, rfl⟩ : ∃ k, n = k + 8 := ⟨n - 8, by omega⟩
    rfl
  all_goals intro s hs; simp [axisWrite, hs]

/-- Witness for C5: routing a raw axis-3 event into slot 1's x on a fresh
map, with slot 0 untouched, and a raw axis-42 event changing nothing. -/
theorem C5_axis_routing_witness :
    (axisWrite (fun _ => ⟨0, 0⟩) 3 7) 1 = ⟨7, 0⟩ ∧
    (axisWrite (fun _ => ⟨0, 0⟩) 3 7) 0 = ⟨0, 0⟩ ∧
    (axisWrite (fun _ => ⟨0, 0⟩) 42 7) 5 = ⟨0, 0⟩ := by
  have h := C5_axis_routing (fun _ => (⟨0, 0⟩ : AxisPair)) 7
  exact ⟨h.2.2.2.1.1, h.2.2.2.1.2 0 (by decide),
    h.2.2.2.2.2.2.2.2 42 (by decide) 5⟩

/-- C8 (amended): `read_value` and `read_long_value` report the read bytes on
success or the protocol error code on completion failure through their
printed output (not as a return value to the caller), and a failure to even
dispatch the request is signalled by a local dispatch-error message distinct
from any protocol-error completion message. -/
theorem C8_read_reporting :
    ∀ (offset att_ecode : Nat) (bytes : List Nat),
      (LEClient.read_value true true att_ecode bytes).printed =
        [LEClient.ReadMsg.value bytes] ∧
      (LEClient.read_value true false att_ecode bytes).printed =
        [LEClient.ReadMsg.requestFailed att_ecode] ∧
      (LEClient.read_value false true att_ecode bytes).printed =
        [LEClient.ReadMsg.dispatchFailed] ∧
      (LEClient.read_value false false att_ecode bytes).printed =
        [LEClient.ReadMsg.dispatchFailed] ∧
      (LEClient.read_long_value true offset true att_ecode bytes).printed =
        [LEClient.ReadMsg.value bytes] ∧
      (LEClient.read_long_value true offset false att_ecode bytes).printed =
        [LEClient.ReadMsg.requestFailed att_ecode] ∧
      (LEClient.read_long_value false offset true att_ecode bytes).printed =
        [LEClient.ReadMsg.dispatchFailed] ∧
      LEClient.ReadMsg.dispatchFailed ≠ LEClient.ReadMsg.requestFailed att_ecode ∧
      LEClient.ReadMsg.dispatchFailed ≠ LEClient.ReadMsg.value bytes := by
  intro off e b
  refine ⟨rfl, rfl, rfl, rfl, rfl, rfl, rfl, by simp, by simp⟩

/-- C6: end-to-end. From a freshly opened poller reporting 4 axes (and 11
buttons), after a raw axis-0 event with value 20000 and a raw axis-1 event
with value -500, `get_axis_state 0` returns (20000, -500); the control-loop
iteration on that snapshot computes throttle 500, which the 8000 deadzone
maps to 0, and steering -20000, which the deadzone maps to -12000 and the
damping division by 10 to -1200. -/
theorem C6_end_to_end :
    get_axis_state
      (processAxisEvent
        (processAxisEvent (joystickInit (fun _ => ⟨0, 0⟩) 4 11) 0 20000)
        1 (-500)) 0 = Except.ok ⟨20000, -500⟩ ∧
    TMinipro.driveCommand ⟨20000, -500⟩ = (0, -1200) := by
  exact ⟨rfl, by decide⟩

/-- C7: on any open poller configuration, `get_axis_state` with an axis index
at or beyond the axis count queried at open time fails with the out-of-range
error, and `set_button_callback` with a button index at or beyond the button
count fails with the out-of-range error; both error results are pure error
values carrying no modified state. -/
theorem C7_out_of_range (backing : Nat → AxisPair) (na nb axis button : Nat)
    (cb : Callback) :
    (na ≤ axis →
      get_axis_state (joystickInit backing na nb) axis =
        Except.error axisRangeErrorMsg) ∧
    (nb ≤ button →
      set_button_callback (joystickInit backing na nb) button cb =
        Except.error buttonRangeErrorMsg) := by
  constructor
  · intro h
    simp [get_axis_state, joystickInit, h]
  · intro h
    simp [set_button_callback, joystickInit, h]

/-- Witness for C7: a poller with 4 axes and 11 buttons rejects axis 4 and
button 11. -/
theorem C7_out_of_range_witness :
    get_axis_state (joystickInit (fun _ => ⟨0, 0⟩) 4 11) 4 =
      Except.error axisRangeErrorMsg ∧
    set_button_callback (joystickInit (fun _ => ⟨0, 0⟩) 4 11) 11 0 =
      Except.error buttonRangeErrorMsg := by
  have h := C7_out_of_range (fun _ => (⟨0, 0⟩ : AxisPair)) 4 11 4 11 0
  exact ⟨h.1 (by decide), h.2 (by decide)⟩

/-- C9: for every run of the control loop (any finite sequence of axis
snapshots read before the shutdown flag is observed), the drive-command
trace is the per-iteration commands followed by exactly one final neutral
command (0, 0), so the trace ends with (0, 0). -/
theorem C9_final_neutral_command :
    ∀ inputs : List AxisPair,
      TMinipro.control_loop inputs =
        inputs.map TMinipro.driveCommand ++ [(0, 0)] ∧
      (TMinipro.control_loop inputs).getLast? = some (0, 0) := by
  intro inputs
  have h1 : TMinipro.control_loop inputs =
      inputs.map TMinipro.driveCommand ++ [(0, 0)] := by
    induction inputs with
    | nil => rfl
    | cons a rest ih => simp [TMinipro.control_loop, ih]
  refine ⟨h1, ?_⟩
  rw [h1, List.getLast?_concat]

/-- C10: the poller's button-event path indexes the callback table with the
raw event number, with no comparison against the button count queried at
open time: for an event number at or beyond that count, the total embedding's
lookup lands in the out-of-initialized-range branch (`none`), whereas the
bounds-checked public `set_button_callback` path rejects the same index with
an out-of-range error. -/
theorem C10_button_event_unchecked (backing : Nat → AxisPair)
    (na nb number : Nat) (cb : Callback) (h : nb ≤ number) :
    processButtonEvent (joystickInit backing na nb) number = none ∧
    set_button_callback (joystickInit backing na nb) number cb =
      Except.error buttonRangeErrorMsg := by
  constructor
  · simp [processButtonEvent, joystickInit, List.get?_eq_none, h]
  · simp [set_button_callback, joystickInit, h]

/-- Witness for C10: with 11 buttons, a raw button-12 event reaches the
out-of-range lookup branch while `set_button_callback 12` errors. -/
theorem C10_button_event_unchecked_witness :
    processButtonEvent (joystickInit (fun _ => ⟨0, 0⟩) 4 11) 12 = none ∧
    set_button_callback (joystickInit (fun _ => ⟨0, 0⟩) 4 11) 12 0 =
      Except.error buttonRangeErrorMsg :=
  C10_button_event_unchecked (fun _ => ⟨0, 0⟩) 4 11 12 0 (by decide)

end Minipro
